import Mathlib

/-
Shallow embedding of the automated trading bot (src/config.py and
src/trading_bot.py).  Money and prices are modelled as rationals (the
Python source uses floats, read here as exact real arithmetic), share
quantities as integers (Python ints).  The external Alpaca gateway is
modelled by scripted oracle answers: the asset list and per-symbol
volumes seen by the selector, the entry price returned by the price
read, the success of the buy and sell submissions, and the sequence of
prices observed by the monitor's polling loop (one `Option` per poll,
`none` = failed price read).  Blocking sleeps are not modelled: they do
not change any state.
-/

namespace Bot

/-- Python `int(q)` on a real number: truncation toward zero
(`int(-0.5) = 0`), as used at src/trading_bot.py line 191. -/
def pyInt (q : ℚ) : ℤ :=
  if q < 0 then ⌈q⌉ else ⌊q⌋

/-- The configuration record of src/config.py (class Config).  All
fields are kept, including the three risk parameters that the control
flow never reads. -/
structure Config where
  API_KEY : String
  API_SECRET : String
  BASE_URL : String
  INITIAL_POT : ℚ
  PROFIT_TARGET : ℚ
  STOP_LOSS_PCT : ℚ
  TAKE_PROFIT_PCT : ℚ
  CHECK_INTERVAL : ℤ
  TRADE_INTERVAL : ℤ
  MAX_CONSECUTIVE_LOSSES : ℤ
  MIN_STOCK_PRICE : ℚ
  MAX_STOCK_PRICE : ℚ
  LOG_FILE : String
  LOG_LEVEL : String
deriving DecidableEq

/-- Config.validate (src/config.py lines 79-107): the chain of checks,
in source order; raising ValueError is modelled as Except.error with
the source's message. -/
def validate (c : Config) : Except String Unit :=
  if c.API_KEY = "YOUR_ALPACA_API_KEY_HERE" then
    Except.error "Please set your Alpaca API key in config.py or as environment variable ALPACA_API_KEY"
  else if c.API_SECRET = "YOUR_ALPACA_SECRET_KEY_HERE" then
    Except.error "Please set your Alpaca API secret in config.py or as environment variable ALPACA_API_SECRET"
  else if c.INITIAL_POT ≤ 0 then
    Except.error "Initial pot must be greater than 0"
  else if c.PROFIT_TARGET ≤ 0 then
    Except.error "Profit target must be greater than 0"
  else if ¬ (0 < c.STOP_LOSS_PCT ∧ c.STOP_LOSS_PCT < 1) then
    Except.error "Stop loss percentage must be between 0 and 1"
  else if ¬ (0 < c.TAKE_PROFIT_PCT ∧ c.TAKE_PROFIT_PCT < 1) then
    Except.error "Take profit percentage must be between 0 and 1"
  else if c.CHECK_INTERVAL ≤ 0 then
    Except.error "Check interval must be greater than 0"
  else
    Except.ok ()

/-- The mutable financial state held on the TradingBot object
(src/trading_bot.py lines 42-44). -/
structure BotState where
  pot : ℚ
  total_profit : ℚ
  trades_completed : ℕ
deriving DecidableEq

/-- TradingBot.__init__ (src/trading_bot.py lines 42-44):
pot = INITIAL_POT, total_profit = 0.0, trades_completed = 0. -/
def initState (c : Config) : BotState :=
  { pot := c.INITIAL_POT, total_profit := 0, trades_completed := 0 }

/-- Exit reason tag returned by monitor_position
(src/trading_bot.py lines 153 and 160). -/
inductive ExitReason where
  | stop_loss
  | take_profit
deriving DecidableEq

/-- Order side of a market order submitted to the execution gateway. -/
inductive Side where
  | buy
  | sell
deriving DecidableEq

/-- A market order submission (symbol and share quantity), as built by
place_buy_order / place_sell_order (src/trading_bot.py lines 97-131). -/
structure TradeOrder where
  side : Side
  symbol : String
  qty : ℤ
deriving DecidableEq

/-- An asset record as returned by the market data gateway
(fields read at src/trading_bot.py line 65). -/
structure Asset where
  symbol : String
  tradable : Bool
  shortable : Bool
deriving DecidableEq

/-- The scan loop of get_most_traded_stock (src/trading_bot.py lines
60-77): walk over the asset list keeping the highest volume seen so far
(strict greater-than, initial max 0); non-tradable or non-shortable
assets are skipped, and a failed volume lookup (exception, or symbol
missing from the barset) skips the asset. -/
def scanAssets (getVolume : String → Option ℤ) :
    List Asset → ℤ → Option String → Option String
  | [], _, top_symbol => top_symbol
  | a :: rest, max_volume, top_symbol =>
    if ¬ a.tradable ∨ ¬ a.shortable then
      scanAssets getVolume rest max_volume top_symbol
    else
      match getVolume a.symbol with
      | none => scanAssets getVolume rest max_volume top_symbol
      | some v =>
        if v > max_volume then scanAssets getVolume rest v (some a.symbol)
        else scanAssets getVolume rest max_volume top_symbol

/-- get_most_traded_stock (src/trading_bot.py lines 49-84): scans the
first 100 assets of the gateway's list. -/
def get_most_traded_stock (assets : List Asset) (getVolume : String → Option ℤ) :
    Option String :=
  scanAssets getVolume (assets.take 100) 0 none

/-- place_buy_order (src/trading_bot.py lines 97-113): returns the
order on success, none when the gateway raises. -/
def place_buy_order (ok : Bool) (symbol : String) (quantity : ℤ) : Option TradeOrder :=
  if ok then some ⟨Side.buy, symbol, quantity⟩ else none

/-- place_sell_order (src/trading_bot.py lines 115-131): returns the
order on success, none when the gateway raises. -/
def place_sell_order (ok : Bool) (symbol : String) (quantity : ℤ) : Option TradeOrder :=
  if ok then some ⟨Side.sell, symbol, quantity⟩ else none

/-- Whether one polled price (none = failed read) breaches a threshold:
stop-loss when price ≤ stop_loss_price, take-profit when
price ≥ take_profit_price. -/
def breaches (stop_loss_price take_profit_price : ℚ) : Option ℚ → Bool
  | none => false
  | some q => decide (q ≤ stop_loss_price) || decide (take_profit_price ≤ q)

/-- monitor_position (src/trading_bot.py lines 133-166) on a scripted
finite sequence of poll results.  A failed read sleeps and polls again;
on the first breach the sell order is submitted — its result (sellOk)
is discarded by the source, mirrored by the unused binding — and the
P&L `(current_price - entry_price) * quantity` is returned with the
exit tag, stop-loss checked before take-profit.  The source loop is
unbounded; `none` here means the script was exhausted with the loop
still polling. -/
def monitor_position (symbol : String) (entry_price : ℚ) (quantity : ℤ)
    (stop_loss_price take_profit_price : ℚ) (sellOk : Bool) :
    List (Option ℚ) → Option (ℚ × ExitReason × TradeOrder)
  | [] => none
  | none :: rest =>
    monitor_position symbol entry_price quantity stop_loss_price take_profit_price sellOk rest
  | some current_price :: rest =>
    if current_price ≤ stop_loss_price then
      let _fill := place_sell_order sellOk symbol quantity
      some ((current_price - entry_price) * (quantity : ℚ), ExitReason.stop_loss,
        ⟨Side.sell, symbol, quantity⟩)
    else if take_profit_price ≤ current_price then
      let _fill := place_sell_order sellOk symbol quantity
      some ((current_price - entry_price) * (quantity : ℚ), ExitReason.take_profit,
        ⟨Side.sell, symbol, quantity⟩)
    else
      monitor_position symbol entry_price quantity stop_loss_price take_profit_price sellOk rest

/-- The share quantity computed at src/trading_bot.py line 191:
`int(self.pot / entry_price)`. -/
def tradeQuantity (pot entry_price : ℚ) : ℤ :=
  pyInt (pot / entry_price)

/-- Stop-loss threshold (src/trading_bot.py line 197). -/
def stop_loss_price (entry_price pct : ℚ) : ℚ :=
  entry_price * (1 - pct)

/-- Take-profit threshold (src/trading_bot.py line 198). -/
def take_profit_price (entry_price pct : ℚ) : ℚ :=
  entry_price * (1 + pct)

/-- The gateway responses consumed by one trade cycle, in call order. -/
structure CycleScript where
  assets : List Asset
  volumes : String → Option ℤ
  entry_price : Option ℚ
  buyOk : Bool
  sellOk : Bool
  prices : List (Option ℚ)

/-- execute_trade_cycle (src/trading_bot.py lines 168-229).  First
component: the state after the cycle and the returned success flag
(none when the monitor's script ran out, i.e. the real loop is still
polling); second component: the market orders submitted.  Python's
falsy checks `if not symbol` and `if not entry_price` abort on the
empty string and on a price of 0.  Note that on a successful cycle the
function itself applies the state update of lines 220-222. -/
def execute_trade_cycle (c : Config) (s : BotState) (g : CycleScript) :
    Option (BotState × Bool) × List TradeOrder :=
  match get_most_traded_stock g.assets g.volumes with
  | none => (some (s, false), [])
  | some symbol =>
    if symbol = "" then (some (s, false), [])
    else
      match g.entry_price with
      | none => (some (s, false), [])
      | some entry_price =>
        if entry_price = 0 then (some (s, false), [])
        else if tradeQuantity s.pot entry_price = 0 then (some (s, false), [])
        else
          match place_buy_order g.buyOk symbol (tradeQuantity s.pot entry_price) with
          | none => (some (s, false), [⟨Side.buy, symbol, tradeQuantity s.pot entry_price⟩])
          | some buy_order =>
            match monitor_position symbol entry_price (tradeQuantity s.pot entry_price)
                (stop_loss_price entry_price c.STOP_LOSS_PCT)
                (take_profit_price entry_price c.TAKE_PROFIT_PCT) g.sellOk g.prices with
            | none => (none, [buy_order])
            | some (result, _exit_type, sell_order) =>
              (some ({ pot := s.pot + result,
                       total_profit := s.total_profit + result,
                       trades_completed := s.trades_completed + 1 }, true),
               [buy_order, sell_order])

/-- The run loop (src/trading_bot.py lines 231-270) over a list of
per-cycle gateway scripts: while total_profit < PROFIT_TARGET, run a
cycle; a failed cycle waits and retries; a successful cycle that
reaches the target breaks.  Returns the final state and all orders
submitted; a stuck monitor ends the trace. -/
def runBot (c : Config) (s : BotState) : List CycleScript → BotState × List TradeOrder
  | [] => (s, [])
  | g :: rest =>
    if s.total_profit < c.PROFIT_TARGET then
      match execute_trade_cycle c s g with
      | (none, os) => (s, os)
      | (some (s1, _success), os) =>
        ((runBot c s1 rest).1, os ++ (runBot c s1 rest).2)
    else (s, [])

/-- The sequence of states reached by the run loop: the state at the
top of each loop iteration, starting from the given state. -/
def runStates (c : Config) (s : BotState) : List CycleScript → List BotState
  | [] => [s]
  | g :: rest =>
    if s.total_profit < c.PROFIT_TARGET then
      match (execute_trade_cycle c s g).1 with
      | none => [s]
      | some (s1, _success) => s :: runStates c s1 rest
    else [s]

/-- The observable outcome of one trade cycle, as seen by the run
loop: either the cycle failed (returned False), or it succeeded with
the monitor's P&L result. -/
inductive CycleOutcome where
  | failed
  | success (result : ℚ)
deriving DecidableEq

/-- The state update applied on a successful cycle
(src/trading_bot.py lines 220-222). -/
def applyOutcome (s : BotState) (result : ℚ) : BotState :=
  { pot := s.pot + result,
    total_profit := s.total_profit + result,
    trades_completed := s.trades_completed + 1 }

/-- The run loop (src/trading_bot.py lines 243-263) at the granularity
of cycle outcomes: `while total_profit < profit_target`, consume the
next scripted outcome (a failed cycle leaves the state unchanged and
retries after the cooldown; a successful one applies the lines 220-222
update).  Returns the final state and the unconsumed script. -/
def run (profit_target : ℚ) (s : BotState) :
    List CycleOutcome → BotState × List CycleOutcome
  | [] => (s, [])
  | o :: rest =>
    if s.total_profit < profit_target then
      match o with
      | CycleOutcome.failed => run profit_target s rest
      | CycleOutcome.success r => run profit_target (applyOutcome s r) rest
    else (s, o :: rest)

/-- Sum of the results of the successful outcomes of a script. -/
def sumSuccesses : List CycleOutcome → ℚ
  | [] => 0
  | CycleOutcome.failed :: rest => sumSuccesses rest
  | CycleOutcome.success r :: rest => r + sumSuccesses rest

/-- Number of successful outcomes of a script. -/
def countSuccesses : List CycleOutcome → ℕ
  | [] => 0
  | CycleOutcome.failed :: rest => countSuccesses rest
  | CycleOutcome.success _ :: rest => countSuccesses rest + 1

/-- A fully valid concrete configuration (the source defaults with
real credentials), used by concrete instances below. -/
def cfgA : Config :=
  { API_KEY := "k", API_SECRET := "s",
    BASE_URL := "https://paper-api.alpaca.markets",
    INITIAL_POT := 1000, PROFIT_TARGET := 500,
    STOP_LOSS_PCT := 1/10, TAKE_PROFIT_PCT := 1/10,
    CHECK_INTERVAL := 30, TRADE_INTERVAL := 60,
    MAX_CONSECUTIVE_LOSSES := 3, MIN_STOCK_PRICE := 5, MAX_STOCK_PRICE := 500,
    LOG_FILE := "trading_bot.log", LOG_LEVEL := "INFO" }

/-- cfgA with the three unenforced risk parameters changed. -/
def cfgC : Config :=
  { cfgA with MAX_CONSECUTIVE_LOSSES := 99, MIN_STOCK_PRICE := 0,
              MAX_STOCK_PRICE := 10000 }

/-- The initial state for cfgA: pot 1000, no profit, no trades. -/
def sA : BotState := { pot := 1000, total_profit := 0, trades_completed := 0 }

/-- The spec's end-to-end stop-loss cycle: entry at 50, pot 1000
(quantity 20, stop 45, target 55), polled prices 50, 48, 44. -/
def gA : CycleScript :=
  { assets := [⟨"AAPL", true, true⟩],
    volumes := fun sym => if sym = "AAPL" then some 1000000 else none,
    entry_price := some 50,
    buyOk := true, sellOk := true,
    prices := [some 50, some 48, some 44] }

/-- gA with the sell submission failing at the gateway. -/
def gB : CycleScript := { gA with sellOk := false }

/-- gA with the buy submission failing at the gateway. -/
def gBuyFail : CycleScript := { gA with buyOk := false }


/-- With a nonnegative argument, Python truncation agrees with floor. -/
theorem pyInt_eq_floor_of_nonneg (q : ℚ) (h : 0 ≤ q) : pyInt q = ⌊q⌋ := by
  unfold pyInt
  rw [if_neg (not_lt.mpr h)]

/-- Claim C1, counterexample: at pot = -1 and price = 2 > 0 the code's
quantity `int(pot / price)` is 0 (Python truncates toward zero) while
the integer floor of pot / price is -1, so the claimed equality
"quantity = floor(pot / price) for every pot" is false. -/
theorem c1_counterexample : tradeQuantity (-1) 2 ≠ ⌊((-1 : ℚ) / 2)⌋ := by
  have h1 : tradeQuantity (-1) 2 = 0 := by norm_num [tradeQuantity, pyInt]
  have h2 : ⌊((-1 : ℚ) / 2)⌋ = -1 := by norm_num
  rw [h1, h2]
  decide

/-- Claim C1 (amended): for every pot ≥ 0 and every price > 0 the
computed share quantity equals the integer floor of pot / price, the
quantity is 0 iff pot < price, and a zero quantity makes the trade
cycle abort, returning an unsuccessful result with the state
unchanged. -/
theorem position_sizing_floor (pot price : ℚ) (hpot : 0 ≤ pot) (hprice : 0 < price) :
    tradeQuantity pot price = ⌊pot / price⌋ ∧
    (tradeQuantity pot price = 0 ↔ pot < price) ∧
    (∀ (c : Config) (s : BotState) (g : CycleScript),
      g.entry_price = some price → s.pot = pot → tradeQuantity pot price = 0 →
      (execute_trade_cycle c s g).1 = some (s, false)) := by
  have hfl : tradeQuantity pot price = ⌊pot / price⌋ :=
    pyInt_eq_floor_of_nonneg _ (div_nonneg hpot hprice.le)
  refine ⟨hfl, ?_, ?_⟩
  · rw [hfl, Int.floor_eq_zero_iff, Set.mem_Ico]
    constructor
    · intro h
      exact (div_lt_one hprice).mp h.2
    · intro h
      exact ⟨div_nonneg hpot hprice.le, (div_lt_one hprice).mpr h⟩
  · intro c s g hg hs hq
    rcases hsel : get_most_traded_stock g.assets g.volumes with _ | symbol
    · simp [execute_trade_cycle, hsel]
    · simp [execute_trade_cycle, hsel, hg, hs, hq]

/-- Witness for the amended claim C1 at pot = 1000, price = 50. -/
theorem position_sizing_floor_witness :
    tradeQuantity 1000 50 = ⌊(1000 : ℚ) / 50⌋ ∧
      (tradeQuantity 1000 50 = 0 ↔ (1000 : ℚ) < 50) :=
  ⟨(position_sizing_floor 1000 50 (by norm_num) (by norm_num)).1,
   (position_sizing_floor 1000 50 (by norm_num) (by norm_num)).2.1⟩

/-- Claim C2: on a scripted price sequence whose earlier polls breach
no threshold, the monitor exits at the first breaching price p,
checking stop-loss (p ≤ stop) before take-profit (p ≥ target),
submits the market sell for the full quantity, and returns
(p - entry) * quantity tagged with the matching exit reason. -/
theorem monitor_first_breach (symbol : String) (entry_price : ℚ) (quantity : ℤ)
    (sl tp : ℚ) (sellOk : Bool) (pre rest : List (Option ℚ)) (p : ℚ)
    (hpre : ∀ o ∈ pre, breaches sl tp o = false)
    (hp : breaches sl tp (some p) = true) :
    monitor_position symbol entry_price quantity sl tp sellOk (pre ++ some p :: rest)
      = some ((p - entry_price) * (quantity : ℚ),
          (if p ≤ sl then ExitReason.stop_loss else ExitReason.take_profit),
          ⟨Side.sell, symbol, quantity⟩) := by
  induction pre with
  | nil =>
    simp only [List.nil_append, monitor_position]
    rcases le_or_lt p sl with h | h
    · rw [if_pos h, if_pos h]
    · have htp : tp ≤ p := by
        simp only [breaches, Bool.or_eq_true, decide_eq_true_eq] at hp
        rcases hp with h1 | h1
        · exact absurd h1 (not_le.mpr h)
        · exact h1
      rw [if_neg (not_le.mpr h), if_pos htp, if_neg (not_le.mpr h)]
  | cons o pre ih =>
    rcases o with _ | q
    · simp only [List.cons_append, monitor_position]
      exact ih (fun o ho => hpre o (List.mem_cons_of_mem _ ho))
    · have hq := hpre (some q) (List.mem_cons_self _ _)
      simp only [breaches, Bool.or_eq_false_iff, decide_eq_false_iff_not] at hq
      simp only [List.cons_append, monitor_position]
      rw [if_neg hq.1, if_neg hq.2]
      exact ih (fun o ho => hpre o (List.mem_cons_of_mem _ ho))

/-- Witness for claim C2: the spec's stop-loss scenario
(entry 50, quantity 20, stop 45, target 55, prices 50, 48, 44). -/
theorem monitor_first_breach_witness :
    monitor_position "AAPL" 50 20 45 55 true ([some 50, some 48] ++ some 44 :: [])
      = some ((44 - 50) * ((20 : ℤ) : ℚ), ExitReason.stop_loss,
          ⟨Side.sell, "AAPL", 20⟩) := by
  have h := monitor_first_breach "AAPL" 50 20 45 55 true [some 50, some 48] [] 44
    (by
      intro o ho
      fin_cases ho <;> norm_num [breaches])
    (by norm_num [breaches])
  rw [h]
  norm_num

/-- Claim C4: for entry price > 0 and percentages in (0,1), the derived
thresholds satisfy
entry*(1-slPct) = stop < entry < target = entry*(1+tpPct). -/
theorem threshold_ordering (entry_price sl_pct tp_pct : ℚ)
    (h0 : 0 < entry_price) (h1 : 0 < sl_pct) (h2 : sl_pct < 1)
    (h3 : 0 < tp_pct) (h4 : tp_pct < 1) :
    stop_loss_price entry_price sl_pct = entry_price * (1 - sl_pct) ∧
    take_profit_price entry_price tp_pct = entry_price * (1 + tp_pct) ∧
    stop_loss_price entry_price sl_pct < entry_price ∧
    entry_price < take_profit_price entry_price tp_pct := by
  refine ⟨rfl, rfl, ?_, ?_⟩
  · unfold stop_loss_price
    nlinarith
  · unfold take_profit_price
    nlinarith

/-- Witness for claim C4 at entry 50 and percentages 1/10. -/
theorem threshold_ordering_witness :
    stop_loss_price 50 (1/10) < 50 ∧ (50 : ℚ) < take_profit_price 50 (1/10) :=
  ⟨(threshold_ordering 50 (1/10) (1/10) (by norm_num) (by norm_num) (by norm_num)
      (by norm_num) (by norm_num)).2.2.1,
   (threshold_ordering 50 (1/10) (1/10) (by norm_num) (by norm_num) (by norm_num)
      (by norm_num) (by norm_num)).2.2.2⟩

/-- Claim C8: configuration validation fails exactly when a credential
is its placeholder, initial pot ≤ 0, profit target ≤ 0, a percentage is
outside (0,1), or the check interval ≤ 0; in particular a stop-loss
percentage of 1 fails while the default configuration (stop-loss 1/10)
succeeds, and a placeholder API key fails. -/
theorem config_validation :
    (∀ c : Config,
      validate c ≠ Except.ok () ↔
        (c.API_KEY = "YOUR_ALPACA_API_KEY_HERE" ∨
         c.API_SECRET = "YOUR_ALPACA_SECRET_KEY_HERE" ∨
         c.INITIAL_POT ≤ 0 ∨ c.PROFIT_TARGET ≤ 0 ∨
         ¬ (0 < c.STOP_LOSS_PCT ∧ c.STOP_LOSS_PCT < 1) ∨
         ¬ (0 < c.TAKE_PROFIT_PCT ∧ c.TAKE_PROFIT_PCT < 1) ∨
         c.CHECK_INTERVAL ≤ 0)) ∧
    validate { cfgA with STOP_LOSS_PCT := 1 }
      = Except.error "Stop loss percentage must be between 0 and 1" ∧
    validate cfgA = Except.ok () ∧
    validate { cfgA with API_KEY := "YOUR_ALPACA_API_KEY_HERE" }
      = Except.error "Please set your Alpaca API key in config.py or as environment variable ALPACA_API_KEY" := by
  refine ⟨?_, ?_, ?_, ?_⟩
  · intro c
    unfold validate
    split_ifs with h1 h2 h3 h4 h5 h6 h7 <;> simp_all
  · norm_num [validate, cfgA, show ("k" : String) ≠ "YOUR_ALPACA_API_KEY_HERE" from by decide,
      show ("s" : String) ≠ "YOUR_ALPACA_SECRET_KEY_HERE" from by decide]
  · norm_num [validate, cfgA, show ("k" : String) ≠ "YOUR_ALPACA_API_KEY_HERE" from by decide,
      show ("s" : String) ≠ "YOUR_ALPACA_SECRET_KEY_HERE" from by decide]
  · norm_num [validate, cfgA]

/-- Once the profit target is reached the run loop stops immediately,
consuming no further cycle outcome. -/
theorem run_of_target_reached (profit_target : ℚ) (s : BotState)
    (script : List CycleOutcome) (h : profit_target ≤ s.total_profit) :
    run profit_target s script = (s, script) := by
  cases script with
  | nil => rfl
  | cons o rest => simp [run, not_lt.mpr h]

/-- Claim C3: starting below the profit target, if every proper prefix
of the script keeps the cumulative profit below the target and the
successful outcome r crosses it, the controller loop consumes exactly
that prefix plus the crossing cycle and stops, each successful cycle
having updated the state by pot += result, totalProfit += result,
tradesCompleted += 1, with failed cycles retried and not counted. -/
theorem controller_stops_at_first_crossing (profit_target : ℚ) (s0 : BotState)
    (pre post : List CycleOutcome) (r : ℚ)
    (h0 : s0.total_profit < profit_target)
    (hpre : ∀ k ≤ pre.length,
      s0.total_profit + sumSuccesses (List.take k pre) < profit_target)
    (hcross : profit_target ≤ s0.total_profit + sumSuccesses pre + r) :
    run profit_target s0 (pre ++ CycleOutcome.success r :: post)
      = ({ pot := s0.pot + sumSuccesses pre + r,
           total_profit := s0.total_profit + sumSuccesses pre + r,
           trades_completed := s0.trades_completed + countSuccesses pre + 1 }, post) := by
  induction pre generalizing s0 with
  | nil =>
    simp only [List.nil_append, run, if_pos h0]
    have hreach : profit_target ≤ (applyOutcome s0 r).total_profit := by
      simp only [applyOutcome]
      simp only [sumSuccesses] at hcross
      linarith
    rw [run_of_target_reached _ _ _ hreach]
    simp [applyOutcome, sumSuccesses, countSuccesses]
  | cons o pre ih =>
    rcases o with _ | r0
    · rw [List.cons_append]
      rw [show run profit_target s0
            (CycleOutcome.failed :: (pre ++ CycleOutcome.success r :: post))
          = run profit_target s0 (pre ++ CycleOutcome.success r :: post) from by
        simp [run, if_pos h0]]
      have hpre1 : ∀ k ≤ pre.length,
          s0.total_profit + sumSuccesses (List.take k pre) < profit_target := by
        intro k hk
        have h := hpre (k + 1) (by simpa using Nat.succ_le_succ hk)
        simpa [sumSuccesses] using h
      have hcross1 : profit_target ≤ s0.total_profit + sumSuccesses pre + r := by
        simpa [sumSuccesses] using hcross
      rw [ih s0 h0 hpre1 hcross1]
      simp [sumSuccesses, countSuccesses]
    · rw [List.cons_append]
      rw [show run profit_target s0
            (CycleOutcome.success r0 :: (pre ++ CycleOutcome.success r :: post))
          = run profit_target (applyOutcome s0 r0)
              (pre ++ CycleOutcome.success r :: post) from by
        simp [run, if_pos h0]]
      have h1 : (applyOutcome s0 r0).total_profit < profit_target := by
        have h := hpre 1 (by simp)
        simp only [List.take_succ_cons, List.take_zero, sumSuccesses] at h
        simp only [applyOutcome]
        linarith
      have hpre1 : ∀ k ≤ pre.length,
          (applyOutcome s0 r0).total_profit + sumSuccesses (List.take k pre)
            < profit_target := by
        intro k hk
        have h := hpre (k + 1) (by simpa using Nat.succ_le_succ hk)
        simp only [List.take_succ_cons, sumSuccesses] at h
        simp only [applyOutcome]
        linarith
      have hcross1 : profit_target
          ≤ (applyOutcome s0 r0).total_profit + sumSuccesses pre + r := by
        simp only [sumSuccesses] at hcross
        simp only [applyOutcome]
        linarith
      rw [ih (applyOutcome s0 r0) h1 hpre1 hcross1]
      simp only [applyOutcome, sumSuccesses, countSuccesses, Prod.mk.injEq,
        BotState.mk.injEq]
      refine ⟨⟨by ring, by ring, by omega⟩, trivial⟩

/-- Witness for claim C3: target 500 from pot 1000, outcomes
success 300, failed, success 250: the loop stops after the third cycle
with pot 1550, total profit 550 and 2 completed trades. -/
theorem controller_stops_witness :
    run 500 sA [CycleOutcome.success 300, CycleOutcome.failed, CycleOutcome.success 250]
      = ({ pot := 1550, total_profit := 550, trades_completed := 2 }, []) := by
  have h := controller_stops_at_first_crossing 500 sA
    [CycleOutcome.success 300, CycleOutcome.failed] [] 250
    (by norm_num [sA])
    (by
      intro k hk
      have hk2 : k ≤ 2 := by simpa using hk
      interval_cases k <;> norm_num [sA, sumSuccesses])
    (by norm_num [sA, sumSuccesses])
  norm_num [sA, sumSuccesses, countSuccesses] at h
  exact h

/-- One trade cycle preserves pot minus total profit: aborted cycles
change nothing and successful cycles add the same result to both
(src/trading_bot.py lines 220-221). -/
theorem cycle_preserves_diff (c : Config) (s : BotState) (g : CycleScript)
    (s1 : BotState) (b : Bool)
    (h : (execute_trade_cycle c s g).1 = some (s1, b)) :
    s1.pot - s1.total_profit = s.pot - s.total_profit := by
  unfold execute_trade_cycle at h
  repeat' split at h
  all_goals try simp_all
  all_goals obtain ⟨h1, -⟩ := h
  all_goals subst h1
  all_goals simp

/-- The monitor skips a failed price read and keeps polling. -/
theorem monitor_position_skip_none (symbol : String) (entry_price : ℚ)
    (quantity : ℤ) (sl tp : ℚ) (sellOk : Bool) (rest : List (Option ℚ)) :
    monitor_position symbol entry_price quantity sl tp sellOk (none :: rest)
      = monitor_position symbol entry_price quantity sl tp sellOk rest := rfl

/-- The monitor's output never depends on whether the sell submission
succeeds: the source discards the result of place_sell_order. -/
theorem monitor_position_sellOk (b1 b2 : Bool) (symbol : String)
    (entry_price : ℚ) (quantity : ℤ) (sl tp : ℚ) (ps : List (Option ℚ)) :
    monitor_position symbol entry_price quantity sl tp b1 ps
      = monitor_position symbol entry_price quantity sl tp b2 ps := by
  induction ps with
  | nil => rfl
  | cons o rest ih =>
    rcases o with _ | p
    · simpa [monitor_position] using ih
    · simp only [monitor_position]
      split_ifs <;> simp [ih]

/-- Claim C5, counterexample: in the spec's concrete stop-loss cycle,
execute_trade_cycle itself returns a mutated financial state
(pot 1000 → 880, totalProfit 0 → -120, tradesCompleted 0 → 1), so the
claim that the cycle leaves pot, totalProfit and tradesCompleted
unchanged, all mutation happening in the Controller afterwards, is
false. -/
theorem c5_counterexample :
    (execute_trade_cycle cfgA sA gA).1
      = some ({ pot := 880, total_profit := -120, trades_completed := 1 }, true) ∧
    sA.pot = 1000 ∧ ((880 : ℚ) ≠ 1000) := by
  refine ⟨?_, rfl, by norm_num⟩
  norm_num [execute_trade_cycle, get_most_traded_stock, scanAssets, tradeQuantity,
    pyInt, stop_loss_price, take_profit_price, monitor_position, place_buy_order,
    place_sell_order, cfgA, sA, gA, show ("AAPL" : String) ≠ "" from by decide]

/-- Claim C5 (amended): a trade cycle leaves the financial state
unchanged exactly when it aborts; on a successful cycle it is
execute_trade_cycle itself, before returning, that applies the
bookkeeping update — pot and totalProfit change by the same trade
result and tradesCompleted increments by one — and the Controller
applies no further mutation. -/
theorem cycle_mutation (c : Config) (s : BotState) (g : CycleScript)
    (s1 : BotState) (b : Bool)
    (h : (execute_trade_cycle c s g).1 = some (s1, b)) :
    (b = false → s1 = s) ∧
    (b = true → s1.pot - s.pot = s1.total_profit - s.total_profit ∧
      s1.trades_completed = s.trades_completed + 1) := by
  unfold execute_trade_cycle at h
  repeat' split at h
  all_goals try simp_all
  all_goals obtain ⟨h1, -⟩ := h
  all_goals subst h1
  all_goals simp

/-- Witness for the amended claim C5: the concrete stop-loss cycle. -/
theorem cycle_mutation_witness :
    ((true : Bool) = false →
      ({ pot := 880, total_profit := -120, trades_completed := 1 } : BotState) = sA) ∧
    ((true : Bool) = true →
      ({ pot := 880, total_profit := -120, trades_completed := 1 } : BotState).pot - sA.pot
          = ({ pot := 880, total_profit := -120, trades_completed := 1 } : BotState).total_profit
            - sA.total_profit ∧
      ({ pot := 880, total_profit := -120, trades_completed := 1 } : BotState).trades_completed
          = sA.trades_completed + 1) :=
  cycle_mutation cfgA sA gA { pot := 880, total_profit := -120, trades_completed := 1 } true
    (by
      norm_num [execute_trade_cycle, get_most_traded_stock, scanAssets, tradeQuantity,
        pyInt, stop_loss_price, take_profit_price, monitor_position, place_buy_order,
        place_sell_order, cfgA, sA, gA, show ("AAPL" : String) ≠ "" from by decide])

/-- Claim C6, counterexample: with the sell submission failing
(gB.sellOk = false) the cycle does not abort: it still returns success
with the trade outcome applied, contradicting "a failed sell order
aborts the cycle rather than letting it complete as a successful
trade". -/
theorem c6_counterexample :
    gB.sellOk = false ∧
    (execute_trade_cycle cfgA sA gB).1
      = some ({ pot := 880, total_profit := -120, trades_completed := 1 }, true) := by
  refine ⟨rfl, ?_⟩
  norm_num [execute_trade_cycle, get_most_traded_stock, scanAssets, tradeQuantity,
    pyInt, stop_loss_price, take_profit_price, monitor_position, place_buy_order,
    place_sell_order, cfgA, sA, gA, gB, show ("AAPL" : String) ≠ "" from by decide]

/-- Claim C6 (amended): a failed buy order aborts the cycle, which is
reported failed with the state unchanged, and the Controller then moves
on to the next cycle (retry after cooldown); a failed sell order,
however, does not abort the cycle: the cycle's entire result is
independent of whether the sell submission succeeds. -/
theorem write_failure_handling (c : Config) (s : BotState) (g : CycleScript) :
    (g.buyOk = false → (execute_trade_cycle c s g).1 = some (s, false)) ∧
    (∀ b1 b2 : Bool,
      execute_trade_cycle c s { g with sellOk := b1 }
        = execute_trade_cycle c s { g with sellOk := b2 }) ∧
    (∀ rest : List CycleScript, s.total_profit < c.PROFIT_TARGET → g.buyOk = false →
      (runBot c s (g :: rest)).1 = (runBot c s rest).1) := by
  have hfail : g.buyOk = false → (execute_trade_cycle c s g).1 = some (s, false) := by
    intro hbuy
    unfold execute_trade_cycle
    repeat' split
    all_goals simp_all [place_buy_order]
  refine ⟨hfail, ?_, ?_⟩
  · intro b1 b2
    cases g with
    | mk assets volumes ep buyOk sellOk prices =>
      simp only [execute_trade_cycle]
      simp only [monitor_position_sellOk b1 b2]
  · intro rest hguard hbuy
    simp only [runBot, if_pos hguard]
    rcases hcyc : execute_trade_cycle c s g with ⟨fst, os⟩
    have hfst : fst = some (s, false) := by
      rw [← hfail hbuy, hcyc]
    subst hfst
    rfl

/-- Witness for the amended claim C6: a concrete buy-failure cycle
aborts unchanged, and the concrete stop-loss cycle is insensitive to
the sell submission's fate. -/
theorem write_failure_handling_witness :
    (execute_trade_cycle cfgA sA gBuyFail).1 = some (sA, false) ∧
    execute_trade_cycle cfgA sA { gA with sellOk := true }
      = execute_trade_cycle cfgA sA { gA with sellOk := false } :=
  ⟨(write_failure_handling cfgA sA gBuyFail).1 rfl,
   (write_failure_handling cfgA sA gA).2.1 true false⟩

/-- Claim C7: a failed price poll is a no-op: the monitor skips it and
retries at the next interval (hence a whole trade cycle — and with it
every account-state field — is unaffected by an extra failed poll), and
the monitor makes an exit decision only on a threshold breach: on a
script with no breaching price it returns no decision, still polling. -/
theorem failed_poll_idempotent (symbol : String) (entry_price : ℚ) (quantity : ℤ)
    (sl tp : ℚ) (sellOk : Bool) :
    (∀ rest : List (Option ℚ),
      monitor_position symbol entry_price quantity sl tp sellOk (none :: rest)
        = monitor_position symbol entry_price quantity sl tp sellOk rest) ∧
    (∀ ps : List (Option ℚ), (∀ o ∈ ps, breaches sl tp o = false) →
      monitor_position symbol entry_price quantity sl tp sellOk ps = none) ∧
    (∀ (c : Config) (s : BotState) (g : CycleScript),
      execute_trade_cycle c s { g with prices := none :: g.prices }
        = execute_trade_cycle c s g) := by
  refine ⟨fun rest => monitor_position_skip_none _ _ _ _ _ _ rest, ?_, ?_⟩
  · intro ps h
    induction ps with
    | nil => rfl
    | cons o rest ih =>
      rcases o with _ | p
      · simpa [monitor_position] using ih (fun o ho => h o (List.mem_cons_of_mem _ ho))
      · have hp := h (some p) (List.mem_cons_self _ _)
        simp only [breaches, Bool.or_eq_false_iff, decide_eq_false_iff_not] at hp
        simp only [monitor_position]
        rw [if_neg hp.1, if_neg hp.2]
        exact ih (fun o ho => h o (List.mem_cons_of_mem _ ho))
  · intro c s g
    cases g with
    | mk assets volumes ep buyOk sellOk prices =>
      simp only [execute_trade_cycle]
      simp only [monitor_position_skip_none]

/-- Witness for claim C7 at the concrete stop-loss scenario. -/
theorem failed_poll_idempotent_witness :
    monitor_position "AAPL" 50 20 45 55 true (none :: [some 44])
      = monitor_position "AAPL" 50 20 45 55 true [some 44] ∧
    monitor_position "AAPL" 50 20 45 55 true [some 50, none, some 46] = none ∧
    execute_trade_cycle cfgA sA { gA with prices := none :: gA.prices }
      = execute_trade_cycle cfgA sA gA :=
  ⟨(failed_poll_idempotent "AAPL" 50 20 45 55 true).1 [some 44],
   (failed_poll_idempotent "AAPL" 50 20 45 55 true).2.1 [some 50, none, some 46]
     (by
       intro o ho
       fin_cases ho <;> norm_num [breaches]),
   (failed_poll_idempotent "AAPL" 50 20 45 55 true).2.2 cfgA sA gA⟩

/-- One trade cycle reads the configuration only through the two
percentage thresholds. -/
theorem cycle_config_congr (c1 c2 : Config)
    (hsl : c1.STOP_LOSS_PCT = c2.STOP_LOSS_PCT)
    (htp : c1.TAKE_PROFIT_PCT = c2.TAKE_PROFIT_PCT)
    (s : BotState) (g : CycleScript) :
    execute_trade_cycle c1 s g = execute_trade_cycle c2 s g := by
  simp only [execute_trade_cycle, hsl, htp]

/-- Claim C9: two runs whose configurations agree on everything except
maxConsecutiveLosses, minStockPrice and maxStockPrice (which may differ
arbitrarily) behave identically on every gateway script: same final
state, same orders submitted, same state trace, same termination. -/
theorem unenforced_risk_params (c1 c2 : Config) (scripts : List CycleScript)
    (h1 : c1.API_KEY = c2.API_KEY) (h2 : c1.API_SECRET = c2.API_SECRET)
    (h3 : c1.BASE_URL = c2.BASE_URL) (h4 : c1.INITIAL_POT = c2.INITIAL_POT)
    (h5 : c1.PROFIT_TARGET = c2.PROFIT_TARGET)
    (h6 : c1.STOP_LOSS_PCT = c2.STOP_LOSS_PCT)
    (h7 : c1.TAKE_PROFIT_PCT = c2.TAKE_PROFIT_PCT)
    (h8 : c1.CHECK_INTERVAL = c2.CHECK_INTERVAL)
    (h9 : c1.TRADE_INTERVAL = c2.TRADE_INTERVAL)
    (h10 : c1.LOG_FILE = c2.LOG_FILE) (h11 : c1.LOG_LEVEL = c2.LOG_LEVEL) :
    runBot c1 (initState c1) scripts = runBot c2 (initState c2) scripts ∧
    runStates c1 (initState c1) scripts = runStates c2 (initState c2) scripts := by
  have hcyc := cycle_config_congr c1 c2 h6 h7
  have hinit : initState c1 = initState c2 := by simp [initState, h4]
  have hrun : ∀ (scripts : List CycleScript) (s : BotState),
      runBot c1 s scripts = runBot c2 s scripts := by
    intro scripts
    induction scripts with
    | nil => intro s; rfl
    | cons g rest ih =>
      intro s
      simp only [runBot, h5, hcyc, ih]
  have hstates : ∀ (scripts : List CycleScript) (s : BotState),
      runStates c1 s scripts = runStates c2 s scripts := by
    intro scripts
    induction scripts with
    | nil => intro s; rfl
    | cons g rest ih =>
      intro s
      simp only [runStates, h5, hcyc, ih]
  rw [hinit]
  exact ⟨hrun scripts _, hstates scripts _⟩

/-- Witness for claim C9: cfgA and cfgC differ exactly in the three
unenforced risk parameters and produce identical runs on the concrete
script. -/
theorem unenforced_risk_params_witness :
    runBot cfgA (initState cfgA) [gA] = runBot cfgC (initState cfgC) [gA] ∧
    runStates cfgA (initState cfgA) [gA] = runStates cfgC (initState cfgC) [gA] :=
  unenforced_risk_params cfgA cfgC [gA] rfl rfl rfl rfl rfl rfl rfl rfl rfl rfl rfl

/-- The capital invariant is preserved from any state along the run. -/
theorem capital_invariant_aux (c : Config) (scripts : List CycleScript)
    (s0 : BotState) (h0 : s0.pot = c.INITIAL_POT + s0.total_profit) :
    ∀ s ∈ runStates c s0 scripts, s.pot = c.INITIAL_POT + s.total_profit := by
  induction scripts generalizing s0 with
  | nil =>
    intro s hs
    simp only [runStates, List.mem_singleton] at hs
    subst hs
    exact h0
  | cons g rest ih =>
    intro s hs
    by_cases hguard : s0.total_profit < c.PROFIT_TARGET
    · simp only [runStates, if_pos hguard] at hs
      rcases hcyc : (execute_trade_cycle c s0 g).1 with _ | ⟨s1, b⟩
      · rw [hcyc] at hs
        simp only [List.mem_singleton] at hs
        subst hs
        exact h0
      · rw [hcyc] at hs
        simp only [List.mem_cons] at hs
        rcases hs with rfl | hs
        · exact h0
        · have hpres := cycle_preserves_diff c s0 g s1 b hcyc
          exact ih s1 (by linarith) s hs
    · simp only [runStates, if_neg hguard, List.mem_singleton] at hs
      subst hs
      exact h0

/-- Claim C10: every state reachable by the run loop — the initial
state and the state after every cycle, successful or failed — satisfies
pot = initialPot + totalProfit, so pot minus totalProfit is constant
for the lifetime of the bot. -/
theorem capital_accounting_invariant (c : Config) (scripts : List CycleScript)
    (s : BotState) (h : s ∈ runStates c (initState c) scripts) :
    s.pot = c.INITIAL_POT + s.total_profit :=
  capital_invariant_aux c scripts (initState c) (by simp [initState]) s h

/-- Witness for claim C10: the initial state of the concrete
configuration. -/
theorem capital_accounting_invariant_witness :
    sA ∈ runStates cfgA (initState cfgA) [] ∧
    sA.pot = cfgA.INITIAL_POT + sA.total_profit :=
  ⟨by simp [runStates, initState, cfgA, sA],
   capital_accounting_invariant cfgA [] sA
     (by simp [runStates, initState, cfgA, sA])⟩

end Bot
